import Mathlib

/-!
Verification development for the Cloudflare bulk-domain-deletion tool:
a shallow embedding in Lean 4 of `src/cloudflare_client.py` (the transport
client, zone resolver and deletion operation) and `src/app.py` (domain
parsing, batch-size validation and the sequential batch worker), together
with theorems settling the frozen claims about the code.

Modelling conventions:
- Parsed JSON response bodies are modelled by the inductive `Json`
  (JSON numbers restricted to integers, which covers every payload the
  claims mention); Python truthiness is `pyTruthy`.
- HTTP traffic is modelled by `HttpResp`: the status code, the parsed
  value of a `Retry-After` header when one is present and non-empty
  (`none` otherwise), the parsed JSON body (`none` when the body is not
  valid JSON), and the raw text.  Durations (sleeps, backoff values,
  elapsed times) are rationals; the float arithmetic the code performs on
  them (doubling from 1.0, capping at 30, `1.0 - elapsed`) is exact in
  binary floating point, so `Rat` is a faithful carrier.
- A Python function that may raise is embedded with an explicit error
  value.  `CloudflareAPIError` has one constructor per raise site of the
  source class; `PyExn.shapeError` stands for the untyped exceptions
  (`AttributeError` / `TypeError`) that the source raises when a JSON
  value does not have the shape its attribute accesses assume, and
  `PyExn.jsonDecodeError` for `resp.json()` failing on a success response.
- A network interaction is driven by the list of responses the server
  gives to the successive physical requests of one logical call; an
  outcome of `none` means the response trace was exhausted (the call is
  still in flight), which never happens in the scenarios the claims quantify
  over.
-/

/-- Parsed JSON values, the result type of `resp.json()` in the source.
JSON numbers are modelled as integers (all numeric payloads relevant to the
claims are integers). -/
inductive Json where
  | null
  | bool (b : Bool)
  | num (n : Int)
  | str (s : String)
  | arr (xs : List Json)
  | obj (fields : List (String × Json))

/-- Python truthiness (`bool(x)`) of a parsed JSON value: `None`, `False`,
`0`, the empty string and empty containers are falsy, everything else is
truthy. -/
def pyTruthy : Json → Bool
  | .null => false
  | .bool b => b
  | .num n => n != 0
  | .str s => !s.isEmpty
  | .arr xs => !xs.isEmpty
  | .obj fs => !fs.isEmpty

/-- Dictionary lookup, `d.get(key)` on a parsed JSON object: `none` when the
key is absent.  Parsed JSON objects have unique keys (`json.loads` keeps the
last duplicate), so first-match lookup is faithful. -/
def dictGet (fields : List (String × Json)) (key : String) : Option Json :=
  fields.lookup key

/-- The ASCII apostrophe character, Python's preferred string-repr quote. -/
def pyQuote : Char := Char.ofNat 39

/-- Escapes of a string body as Python `repr` produces them inside quotes of
kind `q`: backslash, the quote character itself, and the common control
characters.  Other non-printable characters are not modelled (no claim's
payload contains one). -/
def pyEscape (q : Char) (s : String) : String :=
  s.data.foldl (fun acc c =>
    if c = '\\' then acc ++ "\\\\"
    else if c = q then acc ++ "\\" ++ q.toString
    else if c = '\n' then acc ++ "\\n"
    else if c = '\r' then acc ++ "\\r"
    else if c = '\t' then acc ++ "\\t"
    else acc.push c) ""

/-- Python `repr` of a string: single-quoted, except that a string containing
a single quote and no double quote is double-quoted. -/
def pyReprStr (s : String) : String :=
  if s.data.contains pyQuote ∧ ¬ s.data.contains '"' then
    "\"" ++ pyEscape '"' s ++ "\""
  else
    pyQuote.toString ++ pyEscape pyQuote s ++ pyQuote.toString

mutual

/-- Python `repr` of a parsed JSON value (`None` / `True` / `False`, quoted
strings, bracketed containers with `repr`ed elements). -/
def pyRepr : Json → String
  | .null => "None"
  | .bool b => if b then "True" else "False"
  | .num n => toString n
  | .str s => pyReprStr s
  | .arr xs => "[" ++ String.intercalate ", " (pyReprList xs) ++ "]"
  | .obj fs => "\x7b" ++ String.intercalate ", " (pyReprFields fs) ++ "\x7d"

/-- Helper for `pyRepr`: repr of the elements of a JSON array. -/
def pyReprList : List Json → List String
  | [] => []
  | x :: xs => pyRepr x :: pyReprList xs

/-- Helper for `pyRepr`: repr of the fields of a JSON object. -/
def pyReprFields : List (String × Json) → List String
  | [] => []
  | (k, v) :: fs => (pyReprStr k ++ ": " ++ pyRepr v) :: pyReprFields fs

end

/-- Python `str` of a parsed JSON value: the string itself for strings, the
`repr` for everything else (as in `str(data)` and f-string interpolation in
the source). -/
def pyStr : Json → String
  | .str s => s
  | .null => "None"
  | .bool b => if b then "True" else "False"
  | .num n => toString n
  | .arr xs => pyRepr (.arr xs)
  | .obj fs => pyRepr (.obj fs)

/-- The typed exception class of `src/cloudflare_client.py`, one constructor
per raise site: the rate-limit give-up (spec: RateLimitExceeded) and the
non-success HTTP failure (spec: ApiError).  Each carries the exact message
string the source formats. -/
inductive CloudflareAPIError where
  | rateLimitExceeded (msg : String)
  | apiError (msg : String)
deriving DecidableEq

/-- Exceptions a client call can raise: the typed `CloudflareAPIError`, the
untyped `AttributeError` / `TypeError` raised when a JSON value lacks the
shape an attribute access assumes (collapsed to one constructor, since the
code never distinguishes them), and `resp.json()` failing on a success
response. -/
inductive PyExn where
  | cfErr (e : CloudflareAPIError)
  | shapeError
  | jsonDecodeError
deriving DecidableEq

/-- Message of the rate-limit give-up raise in `_request`:
`"Rate limited and max retries exceeded for {method} {path}"`. -/
def rateLimitMsg (method path : String) : String :=
  "Rate limited and max retries exceeded for " ++ method ++ " " ++ path

/-- Message of the non-success raise in `_request`:
`"HTTP {status} for {method} {path}: {message}"`. -/
def apiMsg (status : Nat) (method path message : String) : String :=
  "HTTP " ++ toString status ++ " for " ++ method ++ " " ++ path ++ ": " ++ message

/-- One f-string part of `_format_error_message` for an error entry that is a
dict: `f"{code}: {msg}"` when `code is not None` (absent keys and JSON null
both give Python `None`), else `f"{msg}"`. -/
def entryPartStr (fields : List (String × Json)) : String :=
  match (dictGet fields "code").getD .null with
  | .null => pyStr ((dictGet fields "message").getD .null)
  | c => pyStr c ++ ": " ++ pyStr ((dictGet fields "message").getD .null)

/-- One iteration of the `for err in data["errors"]` loop body: `err.get`
raises `AttributeError` unless the entry is a dict. -/
def entryPart : Json → Except PyExn String
  | .obj fields => .ok (entryPartStr fields)
  | _ => .error .shapeError

/-- The `parts` list built by `_format_error_message` over the entries of a
JSON-array `errors` value; fails at the first non-dict entry, as the loop
does. -/
def entriesParts : List Json → Except PyExn (List String)
  | [] => .ok []
  | e :: es => do
    let p ← entryPart e
    let ps ← entriesParts es
    .ok (p :: ps)

/-- `CloudflareClient._format_error_message(data, status)`: when `data` is a
dict with a truthy `errors` value, join the formatted entries with `"; "`;
otherwise return `str(data)`.  Iterating a truthy non-list `errors` value
raises (`TypeError` for non-iterables, `AttributeError` on the first string
key/character otherwise), modelled as `shapeError`.  The `status` argument is
unused, as in the source. -/
def _format_error_message (data : Json) (status : Nat) : Except PyExn String :=
  match data with
  | .obj fields =>
    match dictGet fields "errors" with
    | some errs =>
      if pyTruthy errs then
        match errs with
        | .arr entries => do
          let parts ← entriesParts entries
          .ok (String.intercalate "; " parts)
        | _ => .error .shapeError
      else .ok (pyStr (.obj fields))
    | none => .ok (pyStr (.obj fields))
  | _ => .ok (pyStr data)

/-- One HTTP response of the server to a physical request: status code, the
parsed numeric value of a present non-empty `Retry-After` header, the parsed
JSON body (`none` when the body is not valid JSON), and the raw text. -/
structure HttpResp where
  status : Nat
  retryAfter : Option Rat := none
  body : Option Json := none
  text : String := ""

/-- The default `max_retries` of the `CloudflareClient` constructor (the app
builds its client with this default). -/
def maxRetriesDefault : Nat := 5

/-- The error body `_request` synthesizes when a non-success response body
cannot be parsed as JSON: `{"errors": [{"message": resp.text}]}`. -/
def effectiveErrorData (r : HttpResp) : Json :=
  match r.body with
  | some j => j
  | none => .obj [("errors", .arr [.obj [("message", .str r.text)]])]

/-- Prepends a sleep duration to the sleep trace of a result. -/
def consSleep {α : Type} (w : Rat) (p : List Rat × α) : List Rat × α :=
  (w :: p.1, p.2)

/-- The `while True` loop of `CloudflareClient._request`, driven by the list
of responses the server gives to the successive physical requests, carrying
the `retry` counter and the current `backoff` value.  Returns the list of
sleep durations performed and the outcome: parsed JSON on success, a raised
exception, or `none` when the response trace is exhausted (the call still in
flight). -/
def requestGo (maxRetries : Nat) (method path : String) :
    List HttpResp → Nat → Rat → List Rat × Option (Except PyExn Json)
  | [], _, _ => ([], none)
  | r :: rest, retry, backoff =>
    if r.status = 429 then
      if maxRetries ≤ retry then
        ([], some (.error (.cfErr (.rateLimitExceeded (rateLimitMsg method path)))))
      else
        consSleep (r.retryAfter.getD backoff)
          (requestGo maxRetries method path rest (retry + 1) (min (backoff * 2) 30))
    else if 400 ≤ r.status then
      match _format_error_message (effectiveErrorData r) r.status with
      | .error e => ([], some (.error e))
      | .ok m =>
        ([], some (.error (.cfErr (.apiError (apiMsg r.status method path m)))))
    else
      match r.body with
      | some j => ([], some (.ok j))
      | none => ([], some (.error .jsonDecodeError))

/-- `CloudflareClient._request(method, path)`: runs the retry loop with the
retry counter starting at 0 and the backoff at 1.0, as the source initializes
them at the start of every top-level call. -/
def _request (maxRetries : Nat) (method path : String) (rs : List HttpResp) :
    List Rat × Option (Except PyExn Json) :=
  requestGo maxRetries method path rs 0 1

/-- A character the Python whitespace predicate (`str.strip`'s default strip
set and `str.isspace`) accepts; the rarer Unicode space-separator characters
beyond these are not modelled. -/
def pyIsSpace (c : Char) : Bool :=
  c = ' ' ∨ c = '\t' ∨ c = '\n' ∨ c = '\x0b' ∨ c = '\x0c' ∨ c = '\r' ∨
    (0x1c ≤ c.toNat ∧ c.toNat ≤ 0x1f) ∨ c.toNat = 0x85 ∨ c.toNat = 0xa0 ∨
    c.toNat = 0x2028 ∨ c.toNat = 0x2029 ∨ c.toNat = 0x3000

/-- Python `str.strip()`: drop leading and trailing whitespace. -/
def pyStrip (s : String) : String :=
  String.mk (((s.data.dropWhile pyIsSpace).reverse.dropWhile pyIsSpace).reverse)

/-- Python `str.lower()` restricted to ASCII case-folding (every domain the
claims mention is ASCII). -/
def pyLower (s : String) : String :=
  String.mk (s.data.map Char.toLower)

/-- A character Python `str.splitlines()` treats as a line boundary (with
`\r\n` handled as a single boundary by `pySplitlinesGo`). -/
def pyIsLineBreak (c : Char) : Bool :=
  c = '\n' ∨ c = '\r' ∨ c = '\x0b' ∨ c = '\x0c' ∨
    (0x1c ≤ c.toNat ∧ c.toNat ≤ 0x1e) ∨ c.toNat = 0x85 ∨
    c.toNat = 0x2028 ∨ c.toNat = 0x2029

/-- Worker of `pySplitlines`, carrying the reversed characters of the current
line; a trailing line without a final boundary is still emitted, and an empty
input yields no lines, as in Python. -/
def pySplitlinesGo : List Char → List Char → List String
  | [], acc => if acc.isEmpty then [] else [String.mk acc.reverse]
  | '\r' :: '\n' :: cs2, acc => String.mk acc.reverse :: pySplitlinesGo cs2 []
  | c :: cs, acc =>
    if pyIsLineBreak c then String.mk acc.reverse :: pySplitlinesGo cs []
    else pySplitlinesGo cs (c :: acc)

/-- Python `str.splitlines()`. -/
def pySplitlines (s : String) : List String :=
  pySplitlinesGo s.data []

/-- `CloudflareClient.get_zone_by_name`: the query parameters it sends with
the listing request (`name` is the trimmed lowercased domain, `match=all`,
`per_page=50`); the listing call's own filtering is advisory, the resolver
filters client-side. -/
def zoneListParams (domain : String) : List (String × Json) :=
  [("name", .str (pyLower (pyStrip domain))),
   ("match", .str "all"),
   ("per_page", .num 50)]

/-- The `for z in results` loop of `get_zone_by_name` over a JSON-array
`result` value: returns the first entry whose `name` field (defaulted to the
empty string when absent) lowercases to `target`; a non-dict entry makes
`z.get` raise, and a non-string `name` value makes `.lower()` raise. -/
def zoneLoop (target : String) : List Json → Except PyExn (Option Json)
  | [] => .ok none
  | z :: zs =>
    match z with
    | .obj fields =>
      match (dictGet fields "name").getD (.str "") with
      | .str s => if pyLower s = target then .ok (some (.obj fields)) else zoneLoop target zs
      | _ => .error .shapeError
    | _ => .error .shapeError

/-- Client-side filtering of `get_zone_by_name` over the `result` value of
the listing body.  Iterating a string or a dict yields per-character strings
or keys, so a non-empty one raises at the first `z.get` (`AttributeError`);
iterating `None`, a number or a boolean raises `TypeError`; both are
`shapeError`. -/
def zoneScan (domain : String) (results : Json) : Except PyExn (Option Json) :=
  let target := pyLower (pyStrip domain)
  match results with
  | .arr zs => zoneLoop target zs
  | .str s => if s.isEmpty then .ok none else .error .shapeError
  | .obj fs => if fs.isEmpty then .ok none else .error .shapeError
  | _ => .error .shapeError

/-- The `result` value `get_zone_by_name` iterates:
`data.get("result", []) if isinstance(data, dict) else []`. -/
def resultsOf (data : Json) : Json :=
  match data with
  | .obj fields => (dictGet fields "result").getD (.arr [])
  | _ => .arr []

/-- `CloudflareClient.get_zone_by_name(domain)`, driven by the responses the
server gives to the listing request: performs `_request("GET", "/zones")`
with the default retry limit and filters the results client-side for an
exact case-insensitive match against the trimmed domain, returning `none`
(Python `None`) when no entry matches. -/
def get_zone_by_name (domain : String) (rs : List HttpResp) :
    List Rat × Option (Except PyExn (Option Json)) :=
  match _request maxRetriesDefault "GET" "/zones" rs with
  | (sleeps, none) => (sleeps, none)
  | (sleeps, some (.error e)) => (sleeps, some (.error e))
  | (sleeps, some (.ok data)) => (sleeps, some (zoneScan domain (resultsOf data)))

/-- The `success` flag `delete_zone` computes:
`bool(data.get("success")) if isinstance(data, dict) else False`. -/
def successFlag (data : Json) : Bool :=
  match data with
  | .obj fields => pyTruthy ((dictGet fields "success").getD .null)
  | _ => false

/-- `CloudflareClient.delete_zone(zone_id)`, driven by the responses the
server gives to the `DELETE /zones/{zone_id}` request: on a transport-level
success it checks the body's own success flag; when that flag is falsy it
returns `(False, msg)` with the message composed by
`_format_error_message(data, 200)` instead of raising. -/
def delete_zone (zone_id : String) (rs : List HttpResp) :
    List Rat × Option (Except PyExn (Bool × String)) :=
  match _request maxRetriesDefault "DELETE" ("/zones/" ++ zone_id) rs with
  | (sleeps, none) => (sleeps, none)
  | (sleeps, some (.error e)) => (sleeps, some (.error e))
  | (sleeps, some (.ok data)) =>
    if successFlag data then (sleeps, some (.ok (true, "Deleted")))
    else
      match _format_error_message data 200 with
      | .error e => (sleeps, some (.error e))
      | .ok msg => (sleeps, some (.ok (false, msg)))

/-- `MAX_BATCH` of `src/app.py`. -/
def MAX_BATCH : Nat := 10

/-- The deduplication loop of `App._parse_domains` (`seen` is a set in the
source, modelled by list membership; `out.append` becomes the cons of the
recursive translation). -/
def dedupGo (seen : List String) : List String → List String
  | [] => []
  | x :: xs => if x ∈ seen then dedupGo seen xs else x :: dedupGo (x :: seen) xs

/-- The `items` list of `App._parse_domains` before deduplication: the lines
of the text, each stripped, with falsy (empty) strings dropped. -/
def parsedItems (text : String) : List String :=
  ((pySplitlines text).map pyStrip).filter (fun x => !x.isEmpty)

/-- `App._parse_domains(text)`: trimmed lines, blanks dropped, duplicates
removed keeping the first occurrence. -/
def _parse_domains (text : String) : List String :=
  dedupGo [] (parsedItems text)

/-- Specification-side de-duplication, following the spec's words "first
occurrence wins, order preserved": keep the head, and drop every later
element equal to it. -/
def dedupFirst : List String → List String
  | [] => []
  | x :: xs => x :: (dedupFirst xs).filter (fun y => y ≠ x)

/-- Result of pressing DELETE (`App.on_delete`) as far as batch validation is
concerned: the empty-batch rejection ("Please enter at least one domain."),
the oversize rejection ("You entered N domains. Please limit to 10 at a
time."), or acceptance of the full parsed list for orchestration.  The
credential check and the confirmation dialog that follow acceptance in the
source are presentation glue that never alters the list; no network call is
made before or during validation (the value is a pure function of the input
text). -/
inductive DeleteAction where
  | noDomains
  | tooMany (n : Nat)
  | start (domains : List String)
deriving DecidableEq

/-- Validation part of `App.on_delete`: parse the text, reject an empty
batch, reject a batch larger than `MAX_BATCH`, otherwise start orchestration
with exactly the parsed list. -/
def on_delete (text : String) : DeleteAction :=
  let domains := _parse_domains text
  if domains.isEmpty then .noDomains
  else if MAX_BATCH < domains.length then .tooMany domains.length
  else .start domains

/-- Behavior of the client as seen by the batch worker: each call either
returns or raises (the response arriving is the worker's only way to make
progress).  `get_zone_by_name` yields Python `None` or a zone dict;
`delete_zone` yields `(ok, msg)`.  The worker passes `zone.get("id")`, a
possibly-absent JSON value, as the zone id. -/
structure ClientBehavior where
  getZoneByName : String → Except PyExn (Option Json)
  deleteZone : Option Json → Except PyExn (Bool × String)

/-- Per-domain result of the batch worker (spec: OperationOutcome). -/
inductive Outcome where
  | deleted
  | notFound
  | failed (msg : String)
  | error (e : PyExn)
deriving DecidableEq

/-- The `try`/`except` body of one iteration of `App._delete_worker`: look
the zone up (`Error` on a raise), treat Python-falsy zones as not found
(`if not zone`), read `zone.get("id")` (a truthy non-dict zone makes `.get`
raise, caught as `Error`), delete, and classify the result; every raise is
caught at this per-item boundary. -/
def processItem (c : ClientBehavior) (domain : String) : Outcome :=
  match c.getZoneByName domain with
  | .error e => .error e
  | .ok none => .notFound
  | .ok (some z) =>
    if !pyTruthy z then .notFound
    else
      match z with
      | .obj fields =>
        match c.deleteZone (dictGet fields "id") with
        | .error e => .error e
        | .ok (true, _) => .deleted
        | .ok (false, msg) => .failed msg
      | _ => .error .shapeError

/-- The pacing sleep of the `finally` block of `App._delete_worker`: when the
item took less than 1 second, sleep the remaining difference, else nothing. -/
def itemSleep (elapsed : Rat) : Rat :=
  if elapsed < 1 then 1 - elapsed else 0

/-- The `for idx, domain in enumerate(domains)` loop of `App._delete_worker`:
one `(outcome, pacing sleep)` pair per input domain, in input order, where
`dur i` is the wall-clock duration of item `i`'s processing (from its `t0` to
its `finally` block). -/
def workerGo (c : ClientBehavior) (dur : Nat → Rat) : List String → Nat → List (Outcome × Rat)
  | [], _ => []
  | d :: ds, i => (processItem c d, itemSleep (dur i)) :: workerGo c dur ds (i + 1)

/-- `App._delete_worker(domains)`, abstracted over the client behavior and
the per-item processing durations. -/
def _delete_worker (c : ClientBehavior) (domains : List String) (dur : Nat → Rat) :
    List (Outcome × Rat) :=
  workerGo c dur domains 0

/-! Helper lemmas. -/

/-- Membership in a cons-extended seen set, as a boolean filter predicate. -/
theorem decide_not_mem_cons (x : String) (seen : List String) :
    (fun y => decide (y ∉ x :: seen)) =
      fun y => decide (y ≠ x) && decide (y ∉ seen) := by
  funext y
  by_cases h1 : y = x
  · simp [h1]
  · simp [h1]

/-- The seen-set loop of `_parse_domains` computes the keep-first
deduplication of its input, restricted to elements not already seen. -/
theorem dedupGo_eq_filter (l : List String) :
    ∀ seen, dedupGo seen l = (dedupFirst l).filter (fun y => decide (y ∉ seen)) := by
  induction l with
  | nil => intro seen; simp [dedupGo, dedupFirst]
  | cons x xs ih =>
    intro seen
    by_cases hx : x ∈ seen
    · simp only [dedupGo, dedupFirst, if_pos hx, List.filter_cons,
        decide_eq_true_eq]
      rw [if_neg (by simp [hx])]
      rw [ih seen, List.filter_filter]
      refine (List.filter_congr ?_).symm
      intro y _
      by_cases h1 : y = x
      · subst h1; simp [hx]
      · simp [h1]
    · simp only [dedupGo, dedupFirst, if_neg hx, List.filter_cons]
      rw [if_pos (by simp [hx])]
      rw [ih (x :: seen), List.filter_filter, decide_not_mem_cons]
      refine congrArg (x :: ·) (List.filter_congr ?_)
      intro y _
      rw [Bool.and_comm]

/-- The keep-first deduplication of `_parse_domains` equals `dedupFirst`. -/
theorem dedupGo_nil (l : List String) : dedupGo [] l = dedupFirst l := by
  rw [dedupGo_eq_filter l []]
  apply List.filter_eq_self.2
  intro y _
  simp

/-- The keep-first deduplication produces no duplicates. -/
theorem dedupFirst_nodup : ∀ l : List String, (dedupFirst l).Nodup := by
  intro l
  induction l with
  | nil => simp [dedupFirst]
  | cons x xs ih =>
    simp only [dedupFirst, List.nodup_cons]
    constructor
    · intro hmem
      rcases List.mem_filter.1 hmem with ⟨_, hne⟩
      simp at hne
    · exact ih.filter _

/-- Claim C8: for every input text, `_parse_domains` returns the text's
lines trimmed of surrounding whitespace, with blank lines dropped
(`parsedItems`) and duplicate entries removed keeping only the first
occurrence in its original position (`dedupFirst`); in particular the
three-line input `"a.com\nb.com\na.com"` yields exactly
`["a.com", "b.com"]`. -/
theorem parse_domains_trims_dedups_first (text : String) :
    _parse_domains text = dedupFirst (parsedItems text)
    ∧ (_parse_domains text).Nodup
    ∧ _parse_domains "a.com\nb.com\na.com" = ["a.com", "b.com"] := by
  refine ⟨dedupGo_nil (parsedItems text), ?_, by decide⟩
  rw [_parse_domains, dedupGo_nil]
  exact dedupFirst_nodup _

/-- Claim C7: batch-size validation happens on the parsed list alone (before
any network activity, which the value of `on_delete` cannot depend on) and
never truncates: an empty parsed list is rejected with the
nothing-to-do signal, a list longer than `MAX_BATCH` (10) is rejected with
the too-many signal carrying its full length, and every list of 1 to 10
domains is accepted for orchestration in full. -/
theorem on_delete_batch_validation (text : String) :
    (_parse_domains text = [] → on_delete text = .noDomains)
    ∧ (MAX_BATCH < (_parse_domains text).length →
        on_delete text = .tooMany (_parse_domains text).length)
    ∧ (_parse_domains text ≠ [] → (_parse_domains text).length ≤ MAX_BATCH →
        on_delete text = .start (_parse_domains text)) := by
  refine ⟨?_, ?_, ?_⟩
  · intro h
    simp [on_delete, h]
  · intro h
    have hne : (_parse_domains text).isEmpty = false := by
      rcases hp : _parse_domains text with _ | ⟨a, l⟩
      · rw [hp] at h; simp [MAX_BATCH] at h
      · rfl
    simp [on_delete, hne, h]
  · intro hne hle
    have hne2 : (_parse_domains text).isEmpty = false := by
      rcases h : _parse_domains text with _ | ⟨a, l⟩
      · exact absurd h hne
      · rfl
    simp [on_delete, hne2, not_lt.2 hle]

/-- Witness for C7: eleven distinct domains are rejected with the too-many
signal, exactly ten are accepted in full, and an empty input is rejected
with the nothing-to-do signal. -/
theorem on_delete_batch_validation_witness :
    on_delete "" = .noDomains
    ∧ on_delete "d1\nd2\nd3\nd4\nd5\nd6\nd7\nd8\nd9\nd10\nd11" = .tooMany 11
    ∧ on_delete "d1\nd2\nd3\nd4\nd5\nd6\nd7\nd8\nd9\nd10" =
        .start ["d1", "d2", "d3", "d4", "d5", "d6", "d7", "d8", "d9", "d10"] := by
  refine ⟨(on_delete_batch_validation "").1 (by decide), ?_, ?_⟩
  · exact ((on_delete_batch_validation _).2.1 (by decide)).trans (by decide)
  · exact ((on_delete_batch_validation _).2.2 (by decide) (by decide)).trans (by decide)

/-- Indexing the worker loop: entry `j` of the loop started at counter `i`
is the processed item `j` of the remaining domains, paced by `dur (i + j)`. -/
theorem workerGo_getElem (c : ClientBehavior) (dur : Nat → Rat) :
    ∀ (ds : List String) (i j : Nat),
      (workerGo c dur ds i)[j]? =
        (ds[j]?).map (fun d => (processItem c d, itemSleep (dur (i + j)))) := by
  intro ds
  induction ds with
  | nil => intro i j; simp [workerGo]
  | cons d ds ih =>
    intro i j
    cases j with
    | zero => simp [workerGo]
    | succ j =>
      simp only [workerGo, List.getElem?_cons_succ, ih (i + 1) j]
      have : i + 1 + j = i + (j + 1) := by omega
      rw [this]

/-- The worker loop produces one entry per remaining domain. -/
theorem workerGo_length (c : ClientBehavior) (dur : Nat → Rat) :
    ∀ (ds : List String) (i : Nat), (workerGo c dur ds i).length = ds.length := by
  intro ds
  induction ds with
  | nil => intro i; rfl
  | cons d ds ih => intro i; simp [workerGo, ih]

/-- Claim C1: the batch worker produces exactly one outcome per input
domain, in input order — entry `i` of `_delete_worker` is exactly the
processed item for domain `i` — and any error raised by the client during an
item (a `.error` result of `getZoneByName`) is caught at that item's
boundary and recorded as an `Error` outcome for that domain, so no item's
failure aborts the batch. -/
theorem worker_one_outcome_per_domain (c : ClientBehavior)
    (domains : List String) (dur : Nat → Rat) :
    (_delete_worker c domains dur).length = domains.length
    ∧ (∀ i : Nat, (_delete_worker c domains dur)[i]? =
        (domains[i]?).map (fun d => (processItem c d, itemSleep (dur i))))
    ∧ (∀ (d : String) (e : PyExn),
        c.getZoneByName d = .error e → processItem c d = .error e) := by
  refine ⟨workerGo_length c dur domains 0, ?_, ?_⟩
  · intro i
    have h := workerGo_getElem c dur domains 0 i
    simpa using h
  · intro d e h
    simp [processItem, h]

/-- A client behavior for the partial-failure scenario of the spec: the
lookup of `boom.com` raises a transport error, every other domain resolves
to a zone that deletes successfully. -/
def boomClient : ClientBehavior where
  getZoneByName := fun d =>
    if d = "boom.com" then
      .error (.cfErr (.apiError (apiMsg 500 "GET" "/zones" "server error")))
    else .ok (some (.obj [("id", .str "z1"), ("name", .str d)]))
  deleteZone := fun _ => .ok (true, "Deleted")

/-- An item-duration assignment for the worker scenarios: item 0 takes 0.2
seconds, every later item takes 1.5 seconds. -/
def durEx : Nat → Rat := fun i => if i = 0 then 1 / 5 else 3 / 2

/-- Witness for C1: on `["ok.com", "boom.com", "ok2.com"]` where
`boom.com`'s lookup raises, the batch still produces three outcomes in
order, with `boom.com` marked `Error` and the other two deleted. -/
theorem worker_one_outcome_per_domain_witness :
    (_delete_worker boomClient ["ok.com", "boom.com", "ok2.com"] durEx).length = 3
    ∧ (_delete_worker boomClient ["ok.com", "boom.com", "ok2.com"] durEx)[0]? =
        some (.deleted, itemSleep (durEx 0))
    ∧ (_delete_worker boomClient ["ok.com", "boom.com", "ok2.com"] durEx)[1]? =
        some (.error (.cfErr (.apiError (apiMsg 500 "GET" "/zones" "server error"))),
          itemSleep (durEx 1))
    ∧ (_delete_worker boomClient ["ok.com", "boom.com", "ok2.com"] durEx)[2]? =
        some (.deleted, itemSleep (durEx 2))
    ∧ processItem boomClient "boom.com" =
        .error (.cfErr (.apiError (apiMsg 500 "GET" "/zones" "server error"))) := by
  have h := worker_one_outcome_per_domain boomClient ["ok.com", "boom.com", "ok2.com"] durEx
  refine ⟨h.1, ?_, ?_, ?_, h.2.2 "boom.com" _ rfl⟩
  · exact (h.2.1 0).trans (by rfl)
  · exact (h.2.1 1).trans (by rfl)
  · exact (h.2.1 2).trans (by rfl)

/-- Claim C9: after each item's outcome is recorded, the worker sleeps
exactly `max 0 (1 - elapsed)` seconds before the next item: the recorded
pacing sleep of item `i` is `max 0 (1 - dur i)`, which is `0` when the item
already took at least one second and the remaining difference otherwise. -/
theorem worker_pacing_floor (c : ClientBehavior)
    (domains : List String) (dur : Nat → Rat) :
    (∀ e : Rat, itemSleep e = max 0 (1 - e))
    ∧ (∀ (i : Nat) (d : String), domains[i]? = some d →
        (_delete_worker c domains dur)[i]? =
          some (processItem c d, max 0 (1 - dur i)))
    ∧ (∀ i : Nat, 1 ≤ dur i → itemSleep (dur i) = 0)
    ∧ (∀ i : Nat, dur i < 1 → itemSleep (dur i) = 1 - dur i) := by
  have hmax : ∀ e : Rat, itemSleep e = max 0 (1 - e) := by
    intro e
    rcases le_or_lt 1 e with h | h
    · rw [itemSleep, if_neg (not_lt.2 h)]
      exact (max_eq_left (by linarith)).symm
    · rw [itemSleep, if_pos h]
      exact (max_eq_right (by linarith)).symm
  refine ⟨hmax, ?_, ?_, ?_⟩
  · intro i d hd
    have h := workerGo_getElem c dur domains 0 i
    rw [Nat.zero_add] at h
    rw [_delete_worker, h, hd]
    simp [hmax (dur i)]
  · intro i h
    rw [itemSleep, if_neg (not_lt.2 h)]
  · intro i h
    rw [itemSleep, if_pos h]

/-- Witness for C9: an item that took 0.2 seconds is followed by a 0.8
second sleep, an item that took 1.5 seconds by no sleep, and the recorded
trace entry carries exactly `max 0 (1 - dur i)`. -/
theorem worker_pacing_floor_witness :
    itemSleep (1 / 5) = 4 / 5
    ∧ itemSleep (3 / 2) = 0
    ∧ (_delete_worker boomClient ["a.com", "b.com"] durEx)[0]? =
        some (processItem boomClient "a.com", max 0 (1 - durEx 0)) := by
  have h := worker_pacing_floor boomClient ["a.com", "b.com"] durEx
  refine ⟨?_, ?_, h.2.1 0 "a.com" rfl⟩
  · exact (h.2.2.2 0 (by rw [durEx]; norm_num)).trans (by rw [durEx]; norm_num)
  · exact h.2.2.1 1 (by rw [durEx]; norm_num)

/-- Claim C2: when the server answers a top-level request with six
consecutive HTTP 429 responses and the configured maximum of 5 retries, the
client raises the rate-limit `CloudflareAPIError` (spec: RateLimitExceeded)
and returns no successful result, whatever bodies, headers or further
responses follow. -/
theorem retry_exhaustion_rate_limit (m p : String)
    (r1 r2 r3 r4 r5 r6 : HttpResp) (rest : List HttpResp)
    (h1 : r1.status = 429) (h2 : r2.status = 429) (h3 : r3.status = 429)
    (h4 : r4.status = 429) (h5 : r5.status = 429) (h6 : r6.status = 429) :
    (_request maxRetriesDefault m p (r1 :: r2 :: r3 :: r4 :: r5 :: r6 :: rest)).2 =
      some (.error (.cfErr (.rateLimitExceeded (rateLimitMsg m p)))) := by
  simp [_request, requestGo, h1, h2, h3, h4, h5, h6, maxRetriesDefault, consSleep]

/-- Witness for C2: six concrete 429 responses with no `Retry-After` header
exhaust the retries and surface the rate-limit error. -/
theorem retry_exhaustion_rate_limit_witness :
    (_request maxRetriesDefault "GET" "/zones"
        [⟨429, none, none, ""⟩, ⟨429, none, none, ""⟩, ⟨429, none, none, ""⟩,
         ⟨429, none, none, ""⟩, ⟨429, none, none, ""⟩, ⟨429, none, none, ""⟩]).2 =
      some (.error (.cfErr (.rateLimitExceeded (rateLimitMsg "GET" "/zones")))) :=
  retry_exhaustion_rate_limit "GET" "/zones" _ _ _ _ _ _ [] rfl rfl rfl rfl rfl rfl

/-- Claim C3: a top-level call answered `429, 429, 200` with no `Retry-After`
header sleeps exactly twice, 1 second then 2 seconds, and returns the parsed
JSON of the 200 response; the retry counter and backoff are reset at the
start of every top-level call (`_request` enters the loop at counter 0 and
backoff 1); and when a `Retry-After` header is present its value is used for
the sleep in preference to the internal backoff. -/
theorem rate_limit_backoff_sequence (m p : String) (a b c : HttpResp)
    (rest : List HttpResp) (j : Json)
    (ha : a.status = 429) (ha2 : a.retryAfter = none)
    (hb : b.status = 429) (hb2 : b.retryAfter = none)
    (hc : c.status = 200) (hc2 : c.body = some j) :
    _request maxRetriesDefault m p (a :: b :: c :: rest) = ([1, 2], some (.ok j))
    ∧ (∀ rs : List HttpResp,
        _request maxRetriesDefault m p rs = requestGo maxRetriesDefault m p rs 0 1)
    ∧ (∀ (r : HttpResp) (t : Rat) (rs2 : List HttpResp),
        r.status = 429 → r.retryAfter = some t →
        (_request maxRetriesDefault m p (r :: rs2)).1 =
          t :: (requestGo maxRetriesDefault m p rs2 1 2).1) := by
  refine ⟨?_, fun rs => rfl, ?_⟩
  · have hmin : min ((1 : Rat) * 2) 30 = 2 := by norm_num
    have hmin2 : min ((2 : Rat) * 2) 30 = 4 := by norm_num
    simp [_request, requestGo, ha, ha2, hb, hb2, hc, hc2, maxRetriesDefault,
      consSleep, hmin, hmin2]
    norm_num
  · intro r t rs2 hr ht
    have hmin : min ((1 : Rat) * 2) 30 = 2 := by norm_num
    simp [_request, requestGo, hr, ht, maxRetriesDefault, consSleep, hmin]
    norm_num

/-- Witness for C3: the concrete sequence `429, 429, 200` sleeps `[1, 2]`
and returns the body of the 200 response, and a 429 carrying
`Retry-After: 7` sleeps 7 seconds first. -/
theorem rate_limit_backoff_sequence_witness :
    _request maxRetriesDefault "GET" "/zones"
        [⟨429, none, none, ""⟩, ⟨429, none, none, ""⟩,
         ⟨200, none, some (.obj [("success", .bool true)]), ""⟩] =
      ([1, 2], some (.ok (.obj [("success", .bool true)])))
    ∧ (_request maxRetriesDefault "GET" "/zones" [⟨429, some 7, none, ""⟩]).1 =
        7 :: (requestGo maxRetriesDefault "GET" "/zones" [] 1 2).1 := by
  have h := rate_limit_backoff_sequence "GET" "/zones"
    ⟨429, none, none, ""⟩ ⟨429, none, none, ""⟩
    ⟨200, none, some (.obj [("success", .bool true)]), ""⟩ []
    (.obj [("success", .bool true)]) rfl rfl rfl rfl rfl rfl
  exact ⟨h.1, h.2.2 ⟨429, some 7, none, ""⟩ 7 [] rfl rfl⟩

/-- Joining a singleton part list gives the part itself. -/
theorem intercalate_single (sep a : String) : String.intercalate sep [a] = a := by
  simp [String.intercalate, String.intercalate.go]

/-- An error entry the `_format_error_message` loop can process without
raising: a JSON object. -/
def entryOk : Json → Bool
  | .obj _ => true
  | _ => false

/-- The part string the loop produces for a well-shaped entry (statement
helper; `""` on a non-object entry, where the loop raises instead). -/
def entryPartOf : Json → String
  | .obj fs => entryPartStr fs
  | _ => ""

/-- Shape condition under which `_format_error_message` cannot raise: when
the data is an object with a truthy `errors` value, that value is a list and
all its entries are objects. -/
def errorsShapeOk : Json → Bool
  | .obj fields =>
    match dictGet fields "errors" with
    | some errs =>
      if pyTruthy errs then
        match errs with
        | .arr es => es.all entryOk
        | _ => false
      else true
    | none => true
  | _ => true

/-- Whether the data carries no truthy `errors` value (the case in which
`_format_error_message` falls back to `str(data)`). -/
def noTruthyErrors : Json → Bool
  | .obj fields =>
    match dictGet fields "errors" with
    | some errs => !pyTruthy errs
    | none => true
  | _ => true

/-- The message `_format_error_message` composes when it does not raise:
the `"; "`-join of the per-entry parts over a truthy `errors` list, and
`str(data)` otherwise (statement helper mirroring the source's branches). -/
def composedMsg (data : Json) : String :=
  match data with
  | .obj fields =>
    match dictGet fields "errors" with
    | some errs =>
      if pyTruthy errs then
        match errs with
        | .arr es => String.intercalate "; " (es.map entryPartOf)
        | _ => ""
      else pyStr (.obj fields)
    | none => pyStr (.obj fields)
  | _ => pyStr data

/-- Over a list of object entries the parts loop succeeds and produces the
per-entry part strings. -/
theorem entriesParts_of_ok (es : List Json) (h : es.all entryOk = true) :
    entriesParts es = .ok (es.map entryPartOf) := by
  induction es with
  | nil => rfl
  | cons e es ih =>
    rw [List.all_cons, Bool.and_eq_true] at h
    cases e with
    | obj fs =>
      simp only [entriesParts, entryPart, ih h.2, List.map_cons, entryPartOf]
      rfl
    | null => simp [entryOk] at h
    | bool b => simp [entryOk] at h
    | num n => simp [entryOk] at h
    | str s => simp [entryOk] at h
    | arr xs => simp [entryOk] at h

/-- Under the shape condition, `_format_error_message` returns the composed
message without raising. -/
theorem format_eq_composed (data : Json) (s : Nat) (h : errorsShapeOk data = true) :
    _format_error_message data s = .ok (composedMsg data) := by
  cases data with
  | obj fields =>
    cases herr : dictGet fields "errors" with
    | none => simp [_format_error_message, composedMsg, herr]
    | some errs =>
      simp only [errorsShapeOk, herr] at h
      by_cases ht : pyTruthy errs
      · rw [if_pos ht] at h
        cases errs with
        | arr es =>
          simp [_format_error_message, composedMsg, herr, ht, entriesParts_of_ok es h]
          rfl
        | null => simp [pyTruthy] at ht
        | bool b => exact Bool.noConfusion h
        | num n => exact Bool.noConfusion h
        | str s2 => exact Bool.noConfusion h
        | obj fs2 => exact Bool.noConfusion h
      · simp [_format_error_message, composedMsg, herr, ht]
  | null => rfl
  | bool b => rfl
  | num n => rfl
  | str s2 => rfl
  | arr xs => rfl

/-- A first response that is a transport-level success returns its parsed
body at once, with no sleeps and no retries. -/
theorem request_first_ok (n : Nat) (m p : String) (r : HttpResp)
    (rest : List HttpResp) (j : Json)
    (h429 : r.status ≠ 429) (hlt : r.status < 400) (hb : r.body = some j) :
    _request n m p (r :: rest) = ([], some (.ok j)) := by
  simp [_request, requestGo, h429, hb, Nat.not_le.2 hlt]

/-- A first response with a non-success status other than 429 is classified
at once — no sleeps, no retries — by `_format_error_message` over the parsed
or synthesized error body. -/
theorem request_first_fail (n : Nat) (m p : String) (r : HttpResp)
    (rest : List HttpResp) (h429 : r.status ≠ 429) (hge : 400 ≤ r.status) :
    _request n m p (r :: rest) =
      (match _format_error_message (effectiveErrorData r) r.status with
       | .error e => ([], some (.error e))
       | .ok msg =>
         ([], some (.error (.cfErr (.apiError (apiMsg r.status m p msg)))))) := by
  simp [_request, requestGo, h429, hge]

/-- Counterexample to claim C6 as stated: a 500 response whose parsed body is
`{"errors": [0]}` — a non-object error entry — makes `err.get("code")` raise
an untyped `AttributeError` inside the message composition, so the client
raises that instead of the claimed `CloudflareAPIError` (ApiError); the
outcome is `PyExn.shapeError`, not `PyExn.cfErr (.apiError _)`. -/
theorem non429_api_error_counterexample :
    (_request maxRetriesDefault "GET" "/zones"
        [⟨500, none, some (.obj [("errors", .arr [.num 0])]), ""⟩]).2 =
      some (.error PyExn.shapeError) := rfl

/-- Claim C6, amended: for every response with a non-success HTTP status
other than 429, the Transport Client performs no retry (no sleeps, and the
result ignores any further responses) and immediately raises an ApiError
carrying the status, method, path and the composed `"; "`-joined message —
provided every entry of a truthy reported `errors` list is an object
(otherwise the entry's field lookup raises an untyped error instead, see the
counterexample); when the body cannot be parsed as JSON, a single error
entry is synthesized from the raw response text, so the composed message is
exactly that text. -/
theorem non429_no_retry_api_error_amended (m p : String) (r : HttpResp)
    (rest : List HttpResp)
    (hge : 400 ≤ r.status) (h429 : r.status ≠ 429)
    (hshape : errorsShapeOk (effectiveErrorData r) = true) :
    _request maxRetriesDefault m p (r :: rest) =
      ([], some (.error (.cfErr (.apiError
        (apiMsg r.status m p (composedMsg (effectiveErrorData r)))))))
    ∧ _format_error_message (effectiveErrorData r) r.status =
        .ok (composedMsg (effectiveErrorData r))
    ∧ (r.body = none → composedMsg (effectiveErrorData r) = r.text) := by
  refine ⟨?_, format_eq_composed _ _ hshape, ?_⟩
  · rw [request_first_fail maxRetriesDefault m p r rest h429 hge,
      format_eq_composed _ _ hshape]
  · intro hb
    rw [effectiveErrorData, hb]
    simp [composedMsg, dictGet, pyTruthy, entryPartOf, entryPartStr, pyStr,
      intercalate_single, List.lookup]

/-- Witness for the amended C6: a 500 response with a proper error envelope
fails at once with the composed message, and a 502 response whose body is
not JSON fails with the raw text as the message. -/
theorem non429_no_retry_api_error_amended_witness :
    _request maxRetriesDefault "GET" "/zones"
        [⟨500, none, some (.obj [("errors", .arr
           [.obj [("code", .num 7), ("message", .str "bad gateway")],
            .obj [("message", .str "second")]])]), ""⟩] =
      ([], some (.error (.cfErr (.apiError
        (apiMsg 500 "GET" "/zones" "7: bad gateway; second")))))
    ∧ _request maxRetriesDefault "DELETE" "/zones/z9"
        [⟨502, none, none, "Bad gateway HTML"⟩] =
      ([], some (.error (.cfErr (.apiError
        (apiMsg 502 "DELETE" "/zones/z9" "Bad gateway HTML"))))) := by
  constructor
  · have h := non429_no_retry_api_error_amended "GET" "/zones"
      ⟨500, none, some (.obj [("errors", .arr
         [.obj [("code", .num 7), ("message", .str "bad gateway")],
          .obj [("message", .str "second")]])]), ""⟩ []
      (by decide) (by decide) (by rfl)
    exact h.1.trans (by rfl)
  · have h := non429_no_retry_api_error_amended "DELETE" "/zones/z9"
      ⟨502, none, none, "Bad gateway HTML"⟩ [] (by decide) (by decide) (by rfl)
    exact h.1.trans (by rw [h.2.2 rfl])

/-- Counterexample to claim C5 as stated: an HTTP 200 response whose body
carries `success = false` but whose `errors` list contains the non-object
entry `0` makes the error-entry-joining loop raise an untyped
`AttributeError` at `err.get("code")` — `delete_zone` raises instead of
returning the non-exceptional `(False, msg)` outcome the claim asserts for
every such response. -/
theorem delete_zone_logical_failure_counterexample :
    delete_zone "z1"
        [⟨200, none, some (.obj [("success", .bool false),
           ("errors", .arr [.num 0])]), ""⟩] =
      ([], some (.error PyExn.shapeError)) := rfl

/-- Claim C5, amended: for every DELETE response with a 2xx status whose
body is an object carrying `success = false`, provided every entry of a
truthy `errors` list in the body is an object (otherwise the joining loop
raises, see the counterexample), `delete_zone` does not raise: it returns
`(False, msg)` with `msg` composed by the same error-entry-joining logic as
the Transport Client (`_format_error_message`); in particular an HTTP 200
response with body
`{"success": false, "errors": [{"code": 1003, "message": "locked"}]}`
yields exactly the message `"1003: locked"`. -/
theorem delete_zone_logical_failure_amended (zid : String) (r : HttpResp)
    (rest : List HttpResp) (fields : List (String × Json))
    (h2xx : 200 ≤ r.status ∧ r.status < 300)
    (hbody : r.body = some (.obj fields))
    (hsucc : dictGet fields "success" = some (.bool false))
    (hshape : errorsShapeOk (.obj fields) = true) :
    delete_zone zid (r :: rest) =
      ([], some (.ok (false, composedMsg (.obj fields))))
    ∧ _format_error_message (.obj fields) 200 = .ok (composedMsg (.obj fields))
    ∧ delete_zone "zone1"
        [⟨200, none, some (.obj [("success", .bool false),
           ("errors", .arr [.obj [("code", .num 1003),
             ("message", .str "locked")]])]), ""⟩] =
        ([], some (.ok (false, "1003: locked"))) := by
  refine ⟨?_, format_eq_composed _ 200 hshape, by rfl⟩
  have hreq := request_first_ok maxRetriesDefault "DELETE" ("/zones/" ++ zid)
    r rest (.obj fields) (by omega) (by omega) hbody
  rw [delete_zone, hreq]
  have hflag : successFlag (.obj fields) = false := by
    rw [successFlag, hsucc]
    rfl
  simp [hflag, format_eq_composed _ 200 hshape]

/-- Witness for the amended C5: the concrete 1003/locked response yields the
non-exceptional failure outcome with exactly the message `"1003: locked"`. -/
theorem delete_zone_logical_failure_amended_witness :
    delete_zone "zone9"
        [⟨204, none, some (.obj [("success", .bool false),
           ("errors", .arr [.obj [("code", .num 1003),
             ("message", .str "locked")]])]), ""⟩] =
      ([], some (.ok (false, "1003: locked"))) := by
  have h := delete_zone_logical_failure_amended "zone9"
    ⟨204, none, some (.obj [("success", .bool false),
       ("errors", .arr [.obj [("code", .num 1003),
         ("message", .str "locked")]])]), ""⟩ []
    [("success", .bool false),
     ("errors", .arr [.obj [("code", .num 1003), ("message", .str "locked")]])]
    (by decide) rfl rfl rfl
  exact h.1.trans (by rfl)

/-- Counterexample to claim C10 as stated: `delete_zone` is not total over
every 2xx parsed body — the body
`{"success": false, "errors": "boom"}` has a truthy non-list `errors`
value, so iterating it yields one-character strings and the first
`err.get` raises an untyped `AttributeError`; the outcome is a raise, not a
`(False, msg)` return. -/
theorem delete_zone_totality_counterexample :
    delete_zone "z2"
        [⟨200, none, some (.obj [("success", .bool false),
           ("errors", .str "boom")]), ""⟩] =
      ([], some (.error PyExn.shapeError)) := rfl

/-- Claim C10, amended: for every 2xx response with a parsed body,
`delete_zone` does not raise provided any truthy `errors` value in the body
is a list of objects (`errorsShapeOk`; otherwise the message composition
raises, see the counterexample): when the body is not a JSON object or its
`success` field is absent or not truthy (`successFlag data = false`), it
returns the flag `false` with a composed message, and that message is
`str(body)` whenever the body carries no truthy `errors` value. -/
theorem delete_zone_totality_amended (zid : String) (r : HttpResp)
    (rest : List HttpResp) (data : Json)
    (h2xx : 200 ≤ r.status ∧ r.status < 300)
    (hbody : r.body = some data)
    (hsucc : successFlag data = false)
    (hshape : errorsShapeOk data = true) :
    delete_zone zid (r :: rest) = ([], some (.ok (false, composedMsg data)))
    ∧ (noTruthyErrors data = true → composedMsg data = pyStr data) := by
  constructor
  · have hreq := request_first_ok maxRetriesDefault "DELETE" ("/zones/" ++ zid)
      r rest data (by omega) (by omega) hbody
    rw [delete_zone, hreq]
    simp [hsucc, format_eq_composed _ 200 hshape]
  · intro hno
    cases data with
    | obj fields =>
      cases herr : dictGet fields "errors" with
      | none => simp [composedMsg, pyStr, herr]
      | some errs =>
        simp only [noTruthyErrors, herr, Bool.not_eq_true'] at hno
        simp [composedMsg, pyStr, herr, hno]
    | null => rfl
    | bool b => rfl
    | num n => rfl
    | str s => rfl
    | arr xs => rfl

/-- Witness for the amended C10: a 200 response whose body is the bare
string `"ok?"` (not a JSON object) yields `(False, "ok?")` — the `str` of
the body — without raising. -/
theorem delete_zone_totality_amended_witness :
    delete_zone "z3" [⟨200, none, some (.str "ok?"), ""⟩] =
      ([], some (.ok (false, "ok?")))
    ∧ composedMsg (.str "ok?") = pyStr (.str "ok?") := by
  have h := delete_zone_totality_amended "z3" ⟨200, none, some (.str "ok?"), ""⟩
    [] (.str "ok?") (by decide) rfl rfl rfl
  exact ⟨h.1.trans (by rfl), h.2 rfl⟩

/-- A listing entry the resolver's loop can process without raising: an
object whose `name` value, when present, is a string (absence defaults to
the empty string as in `z.get("name", "")`). -/
def zoneEntryOk : Json → Bool
  | .obj fields =>
    match (dictGet fields "name").getD (.str "") with
    | .str _ => true
    | _ => false
  | _ => false

/-- The listed name of a well-shaped entry (statement helper; `""` where the
loop would raise). -/
def listedName : Json → String
  | .obj fields =>
    match (dictGet fields "name").getD (.str "") with
    | .str s => s
    | _ => ""
  | _ => ""

/-- A zone returned by the resolver's loop is a well-shaped entry whose
lowercased listed name is exactly the target. -/
theorem zoneLoop_sound (target : String) :
    ∀ (zs : List Json) (z : Json), zoneLoop target zs = .ok (some z) →
      zoneEntryOk z = true ∧ pyLower (listedName z) = target := by
  intro zs
  induction zs with
  | nil => intro z h; exact absurd h (by simp [zoneLoop])
  | cons e es ih =>
    intro z h
    cases e with
    | obj fields =>
      rw [zoneLoop] at h
      cases hname : (dictGet fields "name").getD (.str "") with
      | str s =>
        rw [hname] at h
        have h2 : (if pyLower s = target then Except.ok (some (Json.obj fields))
            else zoneLoop target es) = Except.ok (some z) := h
        by_cases hm : pyLower s = target
        · rw [if_pos hm] at h2
          simp only [Except.ok.injEq, Option.some.injEq] at h2
          subst h2
          exact ⟨by simp [zoneEntryOk, hname], by simp [listedName, hname, hm]⟩
        · rw [if_neg hm] at h2
          exact ih z h2
      | null => rw [hname] at h; exact absurd h (by simp)
      | bool b => rw [hname] at h; exact absurd h (by simp)
      | num n => rw [hname] at h; exact absurd h (by simp)
      | arr xs => rw [hname] at h; exact absurd h (by simp)
      | obj fs => rw [hname] at h; exact absurd h (by simp)
    | null => exact absurd h (by simp [zoneLoop])
    | bool b => exact absurd h (by simp [zoneLoop])
    | num n => exact absurd h (by simp [zoneLoop])
    | str s => exact absurd h (by simp [zoneLoop])
    | arr xs => exact absurd h (by simp [zoneLoop])

/-- Over well-shaped entries none of which matches the target, the
resolver's loop returns Python `None` without raising. -/
theorem zoneLoop_none (target : String) :
    ∀ zs : List Json, zs.all zoneEntryOk = true →
      (∀ z ∈ zs, pyLower (listedName z) ≠ target) →
      zoneLoop target zs = .ok none := by
  intro zs
  induction zs with
  | nil => intro _ _; rfl
  | cons e es ih =>
    intro hok hne
    rw [List.all_cons, Bool.and_eq_true] at hok
    cases e with
    | obj fields =>
      rw [zoneLoop]
      cases hname : (dictGet fields "name").getD (.str "") with
      | str s =>
        have hs : pyLower s ≠ target := by
          have hmem := hne (.obj fields) (List.mem_cons_self _ _)
          simpa [listedName, hname] using hmem
        show (if pyLower s = target then Except.ok (some (Json.obj fields))
            else zoneLoop target es) = Except.ok none
        rw [if_neg hs]
        exact ih hok.2 (fun z hz => hne z (List.mem_cons_of_mem _ hz))
      | null => rw [zoneEntryOk, hname] at hok; exact Bool.noConfusion hok.1
      | bool b => rw [zoneEntryOk, hname] at hok; exact Bool.noConfusion hok.1
      | num n => rw [zoneEntryOk, hname] at hok; exact Bool.noConfusion hok.1
      | arr xs => rw [zoneEntryOk, hname] at hok; exact Bool.noConfusion hok.1
      | obj fs => rw [zoneEntryOk, hname] at hok; exact Bool.noConfusion hok.1
    | null => exact Bool.noConfusion hok.1
    | bool b => exact Bool.noConfusion hok.1
    | num n => exact Bool.noConfusion hok.1
    | str s => exact Bool.noConfusion hok.1
    | arr xs => exact Bool.noConfusion hok.1

/-- Counterexample to claim C4 as stated: with listing results
`[{"name": 5}]` and the query `"a.com"`, no listed entry matches, yet
`get_zone_by_name` does not return the claimed explicit not-found `None`:
the non-string `name` makes `.lower()` raise an untyped `AttributeError`,
surfacing as an error. -/
theorem resolver_not_found_counterexample :
    get_zone_by_name "a.com"
        [⟨200, none, some (.obj [("result", .arr [.obj [("name", .num 5)]])]), ""⟩] =
      ([], some (.error PyExn.shapeError)) := rfl

/-- Claim C4, amended: the resolver returns a zone only when that zone is a
listed entry whose name equals the trimmed input domain under
case-insensitive comparison (unconditionally), and returns an explicit
not-found `None` — not an error — when no listed entry matches exactly,
provided every listed entry is an object whose `name` value, when present,
is a string (a malformed entry makes the comparison raise instead, see the
counterexample); the client-side filter runs on the `result` list of the
listing response, and on listing results
`[{"name":"sub.a.com"},{"name":"a.com"}]` the query `"a.com"` returns only
the exact `"a.com"` entry, never the substring match. -/
theorem resolver_exact_match_amended (dom : String) :
    (∀ (results : Json) (z : Json),
        zoneScan dom results = .ok (some z) →
        zoneEntryOk z = true ∧ pyLower (listedName z) = pyLower (pyStrip dom))
    ∧ (∀ zs : List Json, zs.all zoneEntryOk = true →
        (∀ z ∈ zs, pyLower (listedName z) ≠ pyLower (pyStrip dom)) →
        zoneScan dom (.arr zs) = .ok none)
    ∧ (∀ (rs : List HttpResp) (sleeps : List Rat) (data : Json),
        _request maxRetriesDefault "GET" "/zones" rs = (sleeps, some (.ok data)) →
        get_zone_by_name dom rs = (sleeps, some (zoneScan dom (resultsOf data))))
    ∧ get_zone_by_name "a.com"
        [⟨200, none, some (.obj [("result", .arr
           [.obj [("name", .str "sub.a.com")],
            .obj [("name", .str "a.com"), ("id", .str "z1")]])]), ""⟩] =
      ([], some (.ok (some (.obj [("name", .str "a.com"), ("id", .str "z1")])))) := by
  refine ⟨?_, ?_, ?_, by rfl⟩
  · intro results z h
    cases results with
    | arr zs => exact zoneLoop_sound (pyLower (pyStrip dom)) zs z h
    | str s =>
      rw [zoneScan] at h
      by_cases he : s.isEmpty
      · rw [if_pos he] at h; exact absurd h (by simp)
      · rw [if_neg he] at h; exact absurd h (by simp)
    | obj fs =>
      rw [zoneScan] at h
      by_cases he : fs.isEmpty
      · rw [if_pos he] at h; exact absurd h (by simp)
      · rw [if_neg he] at h; exact absurd h (by simp)
    | null => exact absurd h (by simp [zoneScan])
    | bool b => exact absurd h (by simp [zoneScan])
    | num n => exact absurd h (by simp [zoneScan])
  · intro zs hok hne
    exact zoneLoop_none (pyLower (pyStrip dom)) zs hok hne
  · intro rs sleeps data hreq
    rw [get_zone_by_name, hreq]

/-- Witness for the amended C4: the listing `[{"name":"sub.a.com"}]` holds
no exact match for `"a.com"`, so the scan returns `None` without an error,
and on `[{"name":"sub.a.com"},{"name":"a.com"}]` the resolver returns only
the exact entry. -/
theorem resolver_exact_match_amended_witness :
    zoneScan "a.com" (.arr [.obj [("name", .str "sub.a.com")]]) = .ok none
    ∧ get_zone_by_name "a.com"
        [⟨200, none, some (.obj [("result", .arr
           [.obj [("name", .str "sub.a.com")],
            .obj [("name", .str "a.com"), ("id", .str "z1")]])]), ""⟩] =
      ([], some (.ok (some (.obj [("name", .str "a.com"), ("id", .str "z1")])))) := by
  have h := resolver_exact_match_amended "a.com"
  refine ⟨?_, h.2.2.2⟩
  have hz := h.2.1 [.obj [("name", .str "sub.a.com")]] (by rfl) (by decide)
  exact hz
